import Mathlib

/-!
Verification of the session/conversation lifecycle of the Dextrends chat
application: the client-side history reconstruction, title derivation and
conversation-list ordering of `frontend/src/pages/ChatbotPage.tsx`, the
`sendMessage` state transition of the same file, and the session store of
`init.sql` together with the spec-level session operations.

Times (JavaScript epoch-millisecond values and SQL timestamps) are modelled
as `Nat`; ISO timestamp strings rendered by `new Date().toISOString()` are
kept abstract as `String` parameters.
-/

/-- Message role in the UI thread (`Message.role` in ChatbotPage.tsx). -/
inductive Role where
  | user
  | assistant
deriving DecidableEq, Repr

/-- A UI thread message (interface `Message` in ChatbotPage.tsx). -/
structure Message where
  id : String
  role : Role
  content : String
  timestamp : String
deriving DecidableEq, Repr

/-- One row of `GET /api/chat/history/{sessionId}`: a persisted conversation
turn ({ id, message, response, timestamp }). -/
structure ConversationItem where
  id : String
  message : String
  response : String
  timestamp : String
deriving DecidableEq, Repr

/-- The derived client-side conversation (interface `Conversation` in
ChatbotPage.tsx). `created_at` holds the epoch-millisecond value
`new Date(session.created_at).getTime()` used by the sort comparator. -/
structure Conversation where
  id : String
  title : String
  messages : List Message
  created_at : Nat
  sessionId : String
deriving DecidableEq, Repr

/-- The `history.conversations.forEach` loop of `loadSessionsAndConversations`
(ChatbotPage.tsx lines 138-153): each turn pushes a user message
(`id + "-user"`, content = turn.message) and then an assistant message
(`id + "-assistant"`, content = turn.response), both with the turn's
single persisted timestamp. -/
def reconstructMessages : List ConversationItem → List Message
  | [] => []
  | c :: rest =>
      { id := c.id ++ "-user", role := Role.user,
        content := c.message, timestamp := c.timestamp } ::
      { id := c.id ++ "-assistant", role := Role.assistant,
        content := c.response, timestamp := c.timestamp } ::
      reconstructMessages rest

/-- Title derivation of `loadSessionsAndConversations` (ChatbotPage.tsx lines
136-156): `'New Chat'` for an empty history, else
`history.conversations[0]?.message.slice(0, 50) + '...' || 'New Chat'`
(the `||` fallback fires only on a falsy, i.e. empty, string). -/
def deriveTitle : List ConversationItem → String
  | [] => "New Chat"
  | c :: _ =>
      let t := c.message.take 50 ++ "..."
      if t = "" then "New Chat" else t

/-- The truncated title is never the empty string, so the `|| 'New Chat'`
fallback of the source is dead for nonempty histories. -/
theorem take_append_ellipsis_ne_empty (s : String) : s.take 50 ++ "..." ≠ "" := by
  intro h
  have hlen : (s.take 50 ++ "...").length = 0 := by rw [h]; rfl
  rw [String.length_append] at hlen
  have h3 : "...".length = 3 := rfl
  omega

/-- C1: title derivation is total on turn logs: a session with at least one
turn gets the first turn's user message truncated to its first 50 characters
with an ellipsis appended, and a session with zero turns gets the fixed
placeholder `'New Chat'`. -/
theorem deriveTitle_spec :
    (∀ (c : ConversationItem) (rest : List ConversationItem),
        deriveTitle (c :: rest) = c.message.take 50 ++ "...") ∧
    deriveTitle [] = "New Chat" := by
  refine ⟨fun c rest => ?_, rfl⟩
  simp only [deriveTitle]
  exact if_neg (take_append_ellipsis_ne_empty c.message)

/-- C2: history reconstruction is a deterministic pure function of the turn
log: a log of n turns yields exactly 2n messages, turn i contributing message
2i (role user, the turn's message text, id suffixed `-user`) and message 2i+1
(role assistant, the turn's response text, id suffixed `-assistant`), both
stamped with the turn's single persisted timestamp; reconstructing twice from
the same log yields identical sequences. -/
theorem reconstructMessages_spec :
    (∀ ts : List ConversationItem,
        (reconstructMessages ts).length = 2 * ts.length) ∧
    (∀ (ts : List ConversationItem) (i : Nat) (c : ConversationItem),
        ts.get? i = some c →
        (reconstructMessages ts).get? (2 * i) =
          some { id := c.id ++ "-user", role := Role.user,
                 content := c.message, timestamp := c.timestamp } ∧
        (reconstructMessages ts).get? (2 * i + 1) =
          some { id := c.id ++ "-assistant", role := Role.assistant,
                 content := c.response, timestamp := c.timestamp }) ∧
    (∀ ts ts' : List ConversationItem,
        ts = ts' → reconstructMessages ts = reconstructMessages ts') := by
  refine ⟨fun ts => ?_, fun ts => ?_, fun ts ts' h => by rw [h]⟩
  · induction ts with
    | nil => rfl
    | cons c rest ih => simp [reconstructMessages, ih]; omega
  · induction ts with
    | nil => intro i c h; simp [List.get?] at h
    | cons c rest ih =>
      intro i d h
      cases i with
      | zero => simp [List.get?] at h; subst h; simp [reconstructMessages, List.get?]
      | succ i =>
        have h2 : 2 * (i + 1) = 2 * i + 1 + 1 := by omega
        simp only [List.get?] at h
        have := ih i d h
        rw [h2]
        simpa [reconstructMessages, List.get?] using this

/-- Witness for C2 at a concrete two-turn log. -/
theorem reconstructMessages_spec_witness :
    (reconstructMessages
      [⟨"t1", "hi", "hello", "s1"⟩, ⟨"t2", "how", "fine", "s2"⟩]).get? 2 =
      some { id := "t2" ++ "-user", role := Role.user,
             content := "how", timestamp := "s2" } :=
  (reconstructMessages_spec.2.1
    [⟨"t1", "hi", "hello", "s1"⟩, ⟨"t2", "how", "fine", "s2"⟩]
    1 ⟨"t2", "how", "fine", "s2"⟩ rfl).1

/-- The sort comparator of `loadSessionsAndConversations` (ChatbotPage.tsx
lines 179-186): conversations with messages come first, then creation time
descending via `new Date(b.created_at).getTime() - new Date(a.created_at).getTime()`. -/
def convCompare (a b : Conversation) : Int :=
  if 0 < a.messages.length ∧ b.messages.length = 0 then -1
  else if a.messages.length = 0 ∧ 0 < b.messages.length then 1
  else (b.created_at : Int) - (a.created_at : Int)

/-- `conversationsData.sort(comparator)` (ChatbotPage.tsx line 179): a
comparison sort placing `a` before `b` whenever the comparator is
nonpositive. -/
def sortConversations (l : List Conversation) : List Conversation :=
  l.mergeSort (fun a b => convCompare a b ≤ 0)

theorem convCompare_trans (a b c : Conversation) :
    convCompare a b ≤ 0 → convCompare b c ≤ 0 → convCompare a c ≤ 0 := by
  simp only [convCompare]
  split_ifs <;> omega

theorem convCompare_total (a b : Conversation) :
    convCompare a b ≤ 0 ∨ convCompare b a ≤ 0 := by
  simp only [convCompare]
  split_ifs <;> omega

theorem sortConversations_pairwise (l : List Conversation) :
    (sortConversations l).Pairwise (fun a b => convCompare a b ≤ 0) := by
  have h := @List.sorted_mergeSort Conversation
    (fun a b : Conversation => decide (convCompare a b ≤ 0))
    (fun a b c hab hbc => by
      simp only [decide_eq_true_eq] at *
      exact convCompare_trans a b c hab hbc)
    (fun a b => by
      simp only [Bool.or_eq_true, decide_eq_true_eq]
      exact convCompare_total a b) l
  simpa [sortConversations] using h

/-- C3: ordering policy of the reconstructed conversation list. In the sorted
list, whenever `a` is placed before `b`: it never happens that `a` is empty
while `b` has messages, and within the same group (both empty or both
nonempty) `b` was created no later than `a`; moreover the comparator orders a
nonempty conversation strictly before an empty one regardless of creation
times, and within a group the strictly later-created one strictly first. -/
theorem conversationOrdering_spec :
    (∀ l : List Conversation, (sortConversations l).Pairwise
      (fun a b =>
        ¬ (a.messages.length = 0 ∧ 0 < b.messages.length) ∧
        ((0 < a.messages.length ↔ 0 < b.messages.length) →
          b.created_at ≤ a.created_at))) ∧
    (∀ a b : Conversation, 0 < a.messages.length → b.messages.length = 0 →
      convCompare a b < 0 ∧ 0 < convCompare b a) ∧
    (∀ a b : Conversation, (0 < a.messages.length ↔ 0 < b.messages.length) →
      b.created_at < a.created_at → convCompare a b < 0 ∧ 0 < convCompare b a) := by
  refine ⟨fun l => ?_, fun a b ha hb => ?_, fun a b hg hlt => ?_⟩
  · refine (sortConversations_pairwise l).imp ?_
    intro a b hab
    simp only [convCompare] at hab
    constructor
    · rintro ⟨hae, hbn⟩
      split_ifs at hab <;> omega
    · intro hgrp
      rcases Nat.eq_zero_or_pos a.messages.length with hae | han
      · have hbe : b.messages.length = 0 := by
          by_contra hbn
          have hb : 0 < b.messages.length := Nat.pos_of_ne_zero hbn
          have := hgrp.mpr hb
          omega
        split_ifs at hab <;> omega
      · have hbn : 0 < b.messages.length := hgrp.mp han
        split_ifs at hab <;> omega
  · constructor <;> simp only [convCompare] <;> split_ifs <;> omega
  · constructor <;> simp only [convCompare] <;> split_ifs <;> omega

/-- Witness for C3 on the spec's own example: session B (has turns, created
earlier) sorts strictly before session A (no turns, created later). -/
theorem conversationOrdering_spec_witness :
    convCompare
      { id := "B", title := "b", messages := [⟨"m", Role.user, "hi", "t"⟩],
        created_at := 5, sessionId := "B" }
      { id := "A", title := "New Chat", messages := [], created_at := 9,
        sessionId := "A" } < 0 :=
  (conversationOrdering_spec.2.1
    { id := "B", title := "b", messages := [⟨"m", Role.user, "hi", "t"⟩],
      created_at := 5, sessionId := "B" }
    { id := "A", title := "New Chat", messages := [], created_at := 9,
      sessionId := "A" }
    (by decide) (by decide)).1

/-- The component state of `ChatbotPage` that `sendMessage` reads and writes:
the message thread, the input box, the loading flag, the selected session and
conversation, the conversation list, and the authenticated user (`user.id`). -/
structure ChatState where
  messages : List Message
  inputMessage : String
  loading : Bool
  currentSession : Option String
  currentConversation : Option Conversation
  conversations : List Conversation
  user : Option String
deriving DecidableEq, Repr

/-- Outcome of the `fetch('/api/chat/message', ...)` call as observed by
`sendMessage`: a parsed `{ response }` body, a thrown `{ status }` object for
a non-OK response, a rejection with `name === 'AbortError'`, or any other
thrown error. -/
inductive FetchOutcome where
  | success (response : String)
  | httpError (status : Nat)
  | aborted
  | networkError
deriving DecidableEq, Repr

/-- Externally visible result of one `sendMessage` invocation: the new
component state, how many HTTP requests were issued, and whether a delayed
credential purge plus page reload was scheduled (`some delayMs`). -/
structure SendResult where
  state : ChatState
  requestsIssued : Nat
  purgeScheduledAfterMs : Option Nat
deriving DecidableEq, Repr

/-- The fixed request timeout passed to `setTimeout(() => controller.abort(),
60000)` in `sendMessage` (ChatbotPage.tsx line 313). -/
def SEND_TIMEOUT_MS : Nat := 60000

/-- The fixed delay before the 401 branch of `sendMessage` clears the token
and reloads (ChatbotPage.tsx line 392). -/
def AUTH_PURGE_DELAY_MS : Nat := 3000

/-- Synthetic assistant text of the AbortError branch (ChatbotPage.tsx line 372). -/
def timeoutErrorText : String := "Request timed out. Please try again."

/-- Synthetic assistant text of the 401 branch (ChatbotPage.tsx line 383). -/
def sessionExpiredText : String := "Your session has expired. Please refresh the page and log in again."

/-- Synthetic assistant text of the generic error branch (ChatbotPage.tsx line 398). -/
def genericErrorText : String := "Sorry, I encountered an error. Please try again."

/-- JavaScript `String.prototype.trim`: drop leading and trailing whitespace
characters. -/
def jsTrim (s : String) : String :=
  String.mk (((s.data.dropWhile Char.isWhitespace).reverse.dropWhile
    Char.isWhitespace).reverse)

/-- The guard of `sendMessage` (ChatbotPage.tsx line 286):
`!inputMessage.trim() || loading || !currentSession || !user`
(a trimmed string is falsy exactly when it is empty). -/
def sendGuard (st : ChatState) : Bool :=
  (jsTrim st.inputMessage == "") || st.loading || st.currentSession.isNone || st.user.isNone

/-- The `disabled` condition of the send button (ChatbotPage.tsx line 585):
`!inputMessage.trim() || loading || !currentSession || !user`. -/
def sendButtonDisabled (st : ChatState) : Bool :=
  (jsTrim st.inputMessage == "") || st.loading || st.currentSession.isNone || st.user.isNone

/-- The abort wiring of `sendMessage` (ChatbotPage.tsx lines 311-325): the
request runs under an AbortController whose `abort` fires after
`SEND_TIMEOUT_MS`, so a call whose elapsed time reaches the timeout is
observed as an AbortError regardless of its eventual raw outcome. -/
def requestOutcome (elapsedMs : Nat) (raw : FetchOutcome) : FetchOutcome :=
  if SEND_TIMEOUT_MS ≤ elapsedMs then FetchOutcome.aborted else raw

/-- `sendMessage` (ChatbotPage.tsx lines 285-409) as a state transition.
`now` models `Date.now()` (message ids; the assistant entry uses `now + 1`)
and `nowIso` models `new Date().toISOString()`. The guard returns the state
unchanged with no request. Otherwise the user message is appended
optimistically and the input cleared; on success the assistant response is
appended and the selected conversation (and, for a first exchange, its
title) is updated in the conversation list; each error branch appends exactly
one synthetic assistant message, the 401 branch additionally scheduling a
token purge and reload after `AUTH_PURGE_DELAY_MS`; `finally` clears the
loading flag, so the completed transition always ends with loading false. -/
def sendMessage (st : ChatState) (now : Nat) (nowIso : String)
    (outcome : FetchOutcome) : SendResult :=
  if sendGuard st then { state := st, requestsIssued := 0, purgeScheduledAfterMs := none }
  else
    let userMessage : Message :=
      { id := toString now, role := Role.user,
        content := st.inputMessage, timestamp := nowIso }
    let updatedMessages := st.messages ++ [userMessage]
    match outcome with
    | FetchOutcome.success resp =>
        let assistantMessage : Message :=
          { id := toString (now + 1), role := Role.assistant,
            content := resp, timestamp := nowIso }
        let finalMessages := updatedMessages ++ [assistantMessage]
        match st.currentConversation with
        | none =>
            { state :=
                { st with
                  messages := finalMessages
                  inputMessage := ""
                  loading := false }
              requestsIssued := 1
              purgeScheduledAfterMs := none }
        | some conv =>
            let updatedConv :=
              { conv with
                messages := finalMessages
                title := if finalMessages.length = 2
                  then st.inputMessage.take 50 ++ "..." else conv.title }
            { state :=
                { st with
                  messages := finalMessages
                  inputMessage := ""
                  loading := false
                  currentConversation := some updatedConv
                  conversations := st.conversations.map
                    (fun c => if c.id = conv.id then updatedConv else c) }
              requestsIssued := 1
              purgeScheduledAfterMs := none }
    | FetchOutcome.aborted =>
        { state :=
            { st with
              messages := updatedMessages ++
                [{ id := toString (now + 1), role := Role.assistant,
                   content := timeoutErrorText, timestamp := nowIso }]
              inputMessage := ""
              loading := false }
          requestsIssued := 1
          purgeScheduledAfterMs := none }
    | FetchOutcome.httpError status =>
        if status = 401 then
          { state :=
              { st with
                messages := updatedMessages ++
                  [{ id := toString (now + 1), role := Role.assistant,
                     content := sessionExpiredText, timestamp := nowIso }]
                inputMessage := ""
                loading := false }
            requestsIssued := 1
            purgeScheduledAfterMs := some AUTH_PURGE_DELAY_MS }
        else
          { state :=
              { st with
                messages := updatedMessages ++
                  [{ id := toString (now + 1), role := Role.assistant,
                     content := genericErrorText, timestamp := nowIso }]
                inputMessage := ""
                loading := false }
            requestsIssued := 1
            purgeScheduledAfterMs := none }
    | FetchOutcome.networkError =>
        { state :=
            { st with
              messages := updatedMessages ++
                [{ id := toString (now + 1), role := Role.assistant,
                   content := genericErrorText, timestamp := nowIso }]
              inputMessage := ""
              loading := false }
          requestsIssued := 1
          purgeScheduledAfterMs := none }

/-- Whether the fetch outcome is one of the failing cases (non-OK status,
abort, or thrown error). -/
def isFailure : FetchOutcome → Bool
  | FetchOutcome.success _ => false
  | _ => true

/-- A concrete idle component state with a pending input, used to instantiate
the `sendMessage` theorems. -/
def exampleState : ChatState :=
  { messages := []
    inputMessage := "hello"
    loading := false
    currentSession := some "s1"
    currentConversation := none
    conversations := []
    user := some "u1" }

/-- C4: on every failing send (non-OK status, thrown error, or abort) the
thread ends as the prior message list, plus the optimistically appended user
message, plus exactly one synthetic assistant error message, and the loading
flag is back to false; nothing else is added or removed. -/
theorem sendMessage_failure_spec (st : ChatState) (now : Nat) (nowIso : String)
    (outcome : FetchOutcome) (hg : sendGuard st = false)
    (hf : isFailure outcome = true) :
    ∃ err : Message, err.role = Role.assistant ∧
      (err.content = timeoutErrorText ∨ err.content = sessionExpiredText ∨
        err.content = genericErrorText) ∧
      (sendMessage st now nowIso outcome).state.messages =
        st.messages ++
          [{ id := toString now, role := Role.user,
             content := st.inputMessage, timestamp := nowIso }, err] ∧
      (sendMessage st now nowIso outcome).state.loading = false := by
  cases outcome with
  | success r => simp [isFailure] at hf
  | aborted =>
      exact ⟨{ id := toString (now + 1), role := Role.assistant,
               content := timeoutErrorText, timestamp := nowIso },
             rfl, Or.inl rfl, by simp [sendMessage, hg], by simp [sendMessage, hg]⟩
  | networkError =>
      exact ⟨{ id := toString (now + 1), role := Role.assistant,
               content := genericErrorText, timestamp := nowIso },
             rfl, Or.inr (Or.inr rfl), by simp [sendMessage, hg], by simp [sendMessage, hg]⟩
  | httpError status =>
      by_cases h401 : status = 401
      · exact ⟨{ id := toString (now + 1), role := Role.assistant,
                 content := sessionExpiredText, timestamp := nowIso },
               rfl, Or.inr (Or.inl rfl),
               by simp [sendMessage, hg, h401], by simp [sendMessage, hg, h401]⟩
      · exact ⟨{ id := toString (now + 1), role := Role.assistant,
                 content := genericErrorText, timestamp := nowIso },
               rfl, Or.inr (Or.inr rfl),
               by simp [sendMessage, hg, h401], by simp [sendMessage, hg, h401]⟩

/-- Witness for C4: a concrete failing send on the example state. -/
theorem sendMessage_failure_spec_witness :
    ∃ err : Message, err.role = Role.assistant ∧
      (err.content = timeoutErrorText ∨ err.content = sessionExpiredText ∨
        err.content = genericErrorText) ∧
      (sendMessage exampleState 10 "T" FetchOutcome.networkError).state.messages =
        exampleState.messages ++
          [{ id := toString 10, role := Role.user,
             content := exampleState.inputMessage, timestamp := "T" }, err] ∧
      (sendMessage exampleState 10 "T" FetchOutcome.networkError).state.loading = false :=
  sendMessage_failure_spec exampleState 10 "T" FetchOutcome.networkError
    (by decide) (by decide)

/-- C5: the send request runs under a fixed 60000 ms timeout; an elapsed time
reaching the timeout is observed as an abort, which surfaces as a synthetic
assistant message saying the request timed out; and no branch of
`sendMessage` issues a second request (no automatic retry). -/
theorem sendMessage_timeout_spec :
    SEND_TIMEOUT_MS = 60000 ∧
    timeoutErrorText = "Request timed out. Please try again." ∧
    (∀ (elapsedMs : Nat) (raw : FetchOutcome), SEND_TIMEOUT_MS ≤ elapsedMs →
      requestOutcome elapsedMs raw = FetchOutcome.aborted) ∧
    (∀ (st : ChatState) (now : Nat) (nowIso : String) (elapsedMs : Nat)
        (raw : FetchOutcome), sendGuard st = false → SEND_TIMEOUT_MS ≤ elapsedMs →
      (sendMessage st now nowIso (requestOutcome elapsedMs raw)).state.messages =
        st.messages ++
          [{ id := toString now, role := Role.user,
             content := st.inputMessage, timestamp := nowIso },
           { id := toString (now + 1), role := Role.assistant,
             content := timeoutErrorText, timestamp := nowIso }]) ∧
    (∀ (st : ChatState) (now : Nat) (nowIso : String) (outcome : FetchOutcome),
      (sendMessage st now nowIso outcome).requestsIssued ≤ 1) := by
  refine ⟨rfl, rfl, fun e raw he => ?_, fun st now nowIso e raw hg he => ?_, ?_⟩
  · simp [requestOutcome, he]
  · rw [show requestOutcome e raw = FetchOutcome.aborted by simp [requestOutcome, he]]
    simp [sendMessage, hg]
  · intro st now nowIso outcome
    cases outcome with
    | success r =>
        by_cases hg : sendGuard st
        · simp [sendMessage, hg]
        · cases h : st.currentConversation <;> simp [sendMessage, hg, h]
    | aborted =>
        by_cases hg : sendGuard st <;> simp [sendMessage, hg]
    | networkError =>
        by_cases hg : sendGuard st <;> simp [sendMessage, hg]
    | httpError status =>
        by_cases hg : sendGuard st
        · simp [sendMessage, hg]
        · by_cases h401 : status = 401 <;> simp [sendMessage, hg, h401]

/-- Witness for C5: an elapsed time of exactly the timeout turns a concrete
send into the timed-out thread shape. -/
theorem sendMessage_timeout_spec_witness :
    (sendMessage exampleState 10 "T"
        (requestOutcome 60000 FetchOutcome.networkError)).state.messages =
      exampleState.messages ++
        [{ id := toString 10, role := Role.user,
           content := exampleState.inputMessage, timestamp := "T" },
         { id := toString 11, role := Role.assistant,
           content := timeoutErrorText, timestamp := "T" }] :=
  sendMessage_timeout_spec.2.2.2.1 exampleState 10 "T" 60000
    FetchOutcome.networkError (by decide) (by decide)

/-- C10: whenever the loading flag is set, the input is empty or
whitespace-only, no session is selected, or no user is present, `sendMessage`
returns immediately: no HTTP request is issued, and the messages, input and
loading state are unchanged; the send button is disabled under the same
conditions. -/
theorem sendMessage_guard_spec (st : ChatState) (now : Nat) (nowIso : String)
    (outcome : FetchOutcome)
    (h : st.loading = true ∨ jsTrim st.inputMessage = "" ∨
         st.currentSession = none ∨ st.user = none) :
    (sendMessage st now nowIso outcome).state = st ∧
    (sendMessage st now nowIso outcome).requestsIssued = 0 ∧
    sendButtonDisabled st = true := by
  have hg : sendGuard st = true := by
    unfold sendGuard
    rcases h with h | h | h | h <;> simp [h]
  refine ⟨?_, ?_, ?_⟩
  · simp [sendMessage, hg]
  · simp [sendMessage, hg]
  · have : sendButtonDisabled st = sendGuard st := rfl
    rw [this, hg]

/-- Witness for C10: a send attempted while a request is already loading is a
no-op. -/
theorem sendMessage_guard_spec_witness :
    (sendMessage { exampleState with loading := true } 10 "T"
        (FetchOutcome.success "ok")).state = { exampleState with loading := true } ∧
    (sendMessage { exampleState with loading := true } 10 "T"
        (FetchOutcome.success "ok")).requestsIssued = 0 ∧
    sendButtonDisabled { exampleState with loading := true } = true :=
  sendMessage_guard_spec { exampleState with loading := true } 10 "T"
    (FetchOutcome.success "ok") (Or.inl rfl)

/-- Credential-handling effect of a client call: whether the stored token was
removed from localStorage and whether a page reload (forced re-login) was
triggered. -/
structure AuthEffect where
  purgedToken : Bool
  reloaded : Bool
deriving DecidableEq, Repr

/-- The sessions fetch of `loadSessionsAndConversations` (ChatbotPage.tsx
lines 115-124) as a function of the response: on a non-OK 401 the token is
removed and the page reloaded; any other non-OK status throws and is caught
by the outer handler without touching the token; an OK response proceeds. -/
def loadSessionsAuthEffect (ok : Bool) (status : Nat) : AuthEffect :=
  if !ok then
    if status = 401 then { purgedToken := true, reloaded := true }
    else { purgedToken := false, reloaded := false }
  else { purgedToken := false, reloaded := false }

/-- `loadUserStats` (ChatbotPage.tsx lines 209-221) never inspects the
response status: the body is parsed whatever the status, errors are only
logged, and the token is neither removed nor the page reloaded. -/
def loadUserStatsAuthEffect (_status : Nat) : AuthEffect :=
  { purgedToken := false, reloaded := false }

/-- The history fetch inside `loadSessionsAndConversations` (ChatbotPage.tsx
lines 131-175) also never inspects the response status: a failure only makes
the session fall back to an empty conversation entry. -/
def loadHistoryAuthEffect (_status : Nat) : AuthEffect :=
  { purgedToken := false, reloaded := false }

/-- `createNewConversation` (ChatbotPage.tsx lines 223-253): the POST to
`/api/chat/session` is consumed via `.then(res => res.json())` with no
`ok`/status check; a failure is only logged, and the token is neither
removed nor the page reloaded. -/
def createNewConversationAuthEffect (_status : Nat) : AuthEffect :=
  { purgedToken := false, reloaded := false }

/-- `deleteConversation` (ChatbotPage.tsx lines 265-283): the DELETE to
`/api/chat/session/{id}` is awaited without any `ok`/status check; a failure
is only logged, and the token is neither removed nor the page reloaded. -/
def deleteConversationAuthEffect (_status : Nat) : AuthEffect :=
  { purgedToken := false, reloaded := false }

/-- Counterexample to C6 as stated: the user-stats call is an authenticated
call, yet on a 401 response it purges nothing and forces no re-login (and the
per-session history fetch behaves the same way). -/
theorem loadUserStats_401_keeps_credential :
    (loadUserStatsAuthEffect 401).purgedToken = false ∧
    (loadUserStatsAuthEffect 401).reloaded = false ∧
    (loadHistoryAuthEffect 401).purgedToken = false := by
  decide

/-- C6 amended: the sessions-list call purges the stored token and reloads
exactly on a 401 response; a 401 during send appends a session-expired
assistant message and schedules the purge and reload after the fixed
3000 ms delay; the user-stats, per-session history, session-create and
session-delete calls never inspect the status and never purge. -/
theorem auth401_handling_spec :
    (∀ (ok : Bool) (status : Nat),
      ((loadSessionsAuthEffect ok status).purgedToken = true ↔
        (ok = false ∧ status = 401)) ∧
      (loadSessionsAuthEffect ok status).reloaded =
        (loadSessionsAuthEffect ok status).purgedToken) ∧
    (∀ (st : ChatState) (now : Nat) (nowIso : String), sendGuard st = false →
      (sendMessage st now nowIso (FetchOutcome.httpError 401)).purgeScheduledAfterMs =
        some AUTH_PURGE_DELAY_MS ∧
      (sendMessage st now nowIso (FetchOutcome.httpError 401)).state.messages =
        st.messages ++
          [{ id := toString now, role := Role.user,
             content := st.inputMessage, timestamp := nowIso },
           { id := toString (now + 1), role := Role.assistant,
             content := sessionExpiredText, timestamp := nowIso }]) ∧
    AUTH_PURGE_DELAY_MS = 3000 ∧
    (∀ status : Nat, loadUserStatsAuthEffect status =
      { purgedToken := false, reloaded := false }) ∧
    (∀ status : Nat, loadHistoryAuthEffect status =
      { purgedToken := false, reloaded := false }) ∧
    (∀ status : Nat, createNewConversationAuthEffect status =
      { purgedToken := false, reloaded := false }) ∧
    (∀ status : Nat, deleteConversationAuthEffect status =
      { purgedToken := false, reloaded := false }) := by
  refine ⟨fun ok status => ⟨?_, ?_⟩, fun st now nowIso hg => ⟨?_, ?_⟩, rfl,
    fun _ => rfl, fun _ => rfl, fun _ => rfl, fun _ => rfl⟩
  · cases ok <;> by_cases h : status = 401 <;>
      simp [loadSessionsAuthEffect, h]
  · cases ok <;> by_cases h : status = 401 <;>
      simp [loadSessionsAuthEffect, h]
  · simp [sendMessage, hg]
  · simp [sendMessage, hg]

/-- Witness for C6 (amended): a concrete 401 during send schedules the purge
after 3000 ms, and a non-OK 401 on the sessions call purges at once. -/
theorem auth401_handling_spec_witness :
    (sendMessage exampleState 10 "T"
        (FetchOutcome.httpError 401)).purgeScheduledAfterMs = some AUTH_PURGE_DELAY_MS ∧
    ((loadSessionsAuthEffect false 401).purgedToken = true ↔
      (false = false ∧ 401 = 401)) ∧
    deleteConversationAuthEffect 401 =
      { purgedToken := false, reloaded := false } :=
  ⟨(auth401_handling_spec.2.1 exampleState 10 "T" (by decide)).1,
   (auth401_handling_spec.1 false 401).1,
   auth401_handling_spec.2.2.2.2.2.2 401⟩

/-- A row of the `sessions` table (init.sql lines 34-45); timestamps are
epoch values. -/
structure SessionRow where
  id : String
  user_id : String
  created_at : Nat
  last_activity : Nat
  expires_at : Nat
deriving DecidableEq, Repr

/-- A row of the `conversations` table (init.sql lines 47-65), restricted to
the fields the claims use; `session_id` references `sessions(id)` with
ON DELETE CASCADE. -/
structure ConversationRow where
  id : String
  user_id : String
  session_id : String
  message : String
  response : String
  timestamp : Nat
deriving DecidableEq, Repr

/-- The relational state the claims range over: the `sessions` and
`conversations` tables. -/
structure Db where
  sessions : List SessionRow
  conversations : List ConversationRow
deriving DecidableEq, Repr

/-- The invariant of §3: every session row has `expires_at > created_at`. -/
def sessionInvariant (rows : List SessionRow) : Prop :=
  ∀ r ∈ rows, r.created_at < r.expires_at

/-- Modelled from the spec: a session is live iff the current time is
strictly before its `expires_at` (§3; the backend liveness check is not among
the sources). -/
def isLive (now : Nat) (r : SessionRow) : Bool :=
  decide (now < r.expires_at)

/-- Modelled from the spec: `createSession(owner)` of §4.1 (the backend chat
service is not among the sources): a fresh id, `created_at = now`,
`last_activity = now`, `expires_at = now + fixed TTL`. -/
def createSession (owner sid : String) (now ttl : Nat)
    (rows : List SessionRow) : List SessionRow :=
  { id := sid
    user_id := owner
    created_at := now
    last_activity := now
    expires_at := now + ttl } :: rows

/-- Modelled from the spec: `deleteSession(id, owner)` of §4.1 removes the
session row, idempotently (cascade to turns is `deleteSessionCascade`). -/
def deleteSession (sid : String) (rows : List SessionRow) : List SessionRow :=
  rows.filter (fun r => !(r.id == sid))

/-- Modelled from the spec: the per-turn `last_activity` refresh of §3/§4.3
(the backend orchestrator is not among the sources). -/
def touchSession (sid : String) (now : Nat)
    (rows : List SessionRow) : List SessionRow :=
  rows.map (fun r => if r.id = sid then { r with last_activity := now } else r)

/-- `clean_expired_sessions()` from init.sql lines 114-124:
`DELETE FROM sessions WHERE expires_at < CURRENT_TIMESTAMP` and return the
deleted row count. -/
def clean_expired_sessions (now : Nat)
    (rows : List SessionRow) : List SessionRow × Nat :=
  (rows.filter (fun r => !decide (r.expires_at < now)),
   rows.countP (fun r => decide (r.expires_at < now)))

/-- Dropping session `sid` with the ON DELETE CASCADE of init.sql line 51:
the session row disappears and with it every conversation row whose
`session_id` references it. -/
def deleteSessionCascade (sid : String) (db : Db) : Db :=
  { sessions := db.sessions.filter (fun r => !(r.id == sid))
    conversations := db.conversations.filter (fun c => !(c.session_id == sid)) }

/-- Modelled from the spec: `listSessions(owner)` of §4.1 returns all of the
owner's sessions, live or expired (the backend handler for
`GET /api/chat/sessions` is not among the sources). -/
def listSessions (owner : String) (db : Db) : List SessionRow :=
  db.sessions.filter (fun r => r.user_id == owner)

/-- C7: `expires_at > created_at` holds for every row produced by the session
store operations — creation with a positive TTL establishes it, and deletion,
activity refresh and the expiry sweep preserve it — and a session is live iff
the current time is strictly before its `expires_at`. -/
theorem session_store_invariant :
    (∀ (owner sid : String) (now ttl : Nat) (rows : List SessionRow),
      0 < ttl → sessionInvariant rows →
      sessionInvariant (createSession owner sid now ttl rows)) ∧
    (∀ (sid : String) (rows : List SessionRow), sessionInvariant rows →
      sessionInvariant (deleteSession sid rows)) ∧
    (∀ (sid : String) (now : Nat) (rows : List SessionRow), sessionInvariant rows →
      sessionInvariant (touchSession sid now rows)) ∧
    (∀ (now : Nat) (rows : List SessionRow), sessionInvariant rows →
      sessionInvariant (clean_expired_sessions now rows).1) ∧
    (∀ (now : Nat) (r : SessionRow), isLive now r = true ↔ now < r.expires_at) := by
  refine ⟨?_, ?_, ?_, ?_, ?_⟩
  · intro owner sid now ttl rows httl hinv r hr
    rcases List.mem_cons.mp hr with h | h
    · subst h; simp; omega
    · exact hinv r h
  · intro sid rows hinv r hr
    exact hinv r (List.mem_of_mem_filter hr)
  · intro sid now rows hinv r hr
    rcases List.mem_map.mp hr with ⟨s, hs, hmap⟩
    by_cases h : s.id = sid
    · rw [if_pos h] at hmap
      have := hinv s hs
      rw [← hmap]
      simpa using this
    · rw [if_neg h] at hmap
      rw [← hmap]
      exact hinv s hs
  · intro now rows hinv r hr
    exact hinv r (List.mem_of_mem_filter hr)
  · intro now r
    simp [isLive]

/-- Witness for C7: creating a session with TTL 3600 at time 0 in the empty
store yields a store satisfying the invariant, and a row expiring at 10 is
live at 5. -/
theorem session_store_invariant_witness :
    sessionInvariant (createSession "u1" "s1" 0 3600 []) ∧
    (isLive 5 { id := "s1", user_id := "u1", created_at := 0,
                last_activity := 0, expires_at := 10 } = true ↔
      5 < (10 : Nat)) :=
  ⟨session_store_invariant.1 "u1" "s1" 0 3600 [] (by decide)
      (fun r hr => absurd hr (List.not_mem_nil r)),
   session_store_invariant.2.2.2.2 5
     { id := "s1", user_id := "u1", created_at := 0,
       last_activity := 0, expires_at := 10 }⟩

/-- C8: the expiry sweep retains exactly the rows with `expires_at` at or
after the current time (as a sublist, so surviving rows are unchanged and in
order), and returns the number of rows it deleted. -/
theorem clean_expired_sessions_spec (now : Nat) (rows : List SessionRow) :
    (∀ r : SessionRow,
      r ∈ (clean_expired_sessions now rows).1 ↔
        (r ∈ rows ∧ ¬ r.expires_at < now)) ∧
    (clean_expired_sessions now rows).1.Sublist rows ∧
    (clean_expired_sessions now rows).2 +
      (clean_expired_sessions now rows).1.length = rows.length := by
  refine ⟨fun r => ?_, ?_, ?_⟩
  · simp [clean_expired_sessions]
  · exact List.filter_sublist rows
  · simp only [clean_expired_sessions, ← List.countP_eq_length_filter]
    induction rows with
    | nil => rfl
    | cons r rest ih =>
      by_cases h : r.expires_at < now <;>
        simp [List.countP_cons, h] <;> omega

/-- Witness for C8 on a two-row store at time 10: the expired row (expiry 5)
is gone, the live row (expiry 20) is kept, and one deletion is reported. -/
theorem clean_expired_sessions_spec_witness :
    (⟨"a", "u", 0, 0, 5⟩ ∈
        (clean_expired_sessions 10
          [⟨"a", "u", 0, 0, 5⟩, ⟨"b", "u", 0, 0, 20⟩]).1 ↔
      (⟨"a", "u", 0, 0, 5⟩ ∈
          [(⟨"a", "u", 0, 0, 5⟩ : SessionRow), ⟨"b", "u", 0, 0, 20⟩] ∧
        ¬ (5 : Nat) < 10)) ∧
    (clean_expired_sessions 10
        [(⟨"a", "u", 0, 0, 5⟩ : SessionRow), ⟨"b", "u", 0, 0, 20⟩]).2 +
      (clean_expired_sessions 10
        [(⟨"a", "u", 0, 0, 5⟩ : SessionRow), ⟨"b", "u", 0, 0, 20⟩]).1.length = 2 :=
  ⟨(clean_expired_sessions_spec 10
      [⟨"a", "u", 0, 0, 5⟩, ⟨"b", "u", 0, 0, 20⟩]).1 ⟨"a", "u", 0, 0, 5⟩,
   (clean_expired_sessions_spec 10
      [⟨"a", "u", 0, 0, 5⟩, ⟨"b", "u", 0, 0, 20⟩]).2.2⟩

/-- C9: deleting a session removes, by cascade, exactly the conversation
rows referencing it — a turn survives iff it was present and references a
different session — and the deleted session no longer appears in the
owner's session listing. -/
theorem deleteSession_cascade_spec (sid owner : String) (db : Db) :
    (∀ c : ConversationRow,
      c ∈ (deleteSessionCascade sid db).conversations ↔
        (c ∈ db.conversations ∧ c.session_id ≠ sid)) ∧
    (∀ s ∈ listSessions owner (deleteSessionCascade sid db), s.id ≠ sid) ∧
    (∀ s ∈ (deleteSessionCascade sid db).sessions, s.id ≠ sid) := by
  refine ⟨fun c => ?_, fun s hs => ?_, fun s hs => ?_⟩
  · simp [deleteSessionCascade]
  · have hs2 := List.mem_of_mem_filter hs
    have := List.of_mem_filter hs2
    simpa using this
  · have := List.of_mem_filter hs
    simpa using this

/-- Witness for C9: after deleting session `s1` from a store with one `s1`
turn and one `s2` turn, the `s1` turn is gone and `s1` is absent from the
owner's listing. -/
theorem deleteSession_cascade_spec_witness :
    ((⟨"c1", "u", "s1", "hi", "yo", 0⟩ : ConversationRow) ∈
        (deleteSessionCascade "s1"
          { sessions := [⟨"s1", "u", 0, 0, 9⟩, ⟨"s2", "u", 1, 1, 9⟩]
            conversations := [⟨"c1", "u", "s1", "hi", "yo", 0⟩,
                              ⟨"c2", "u", "s2", "ok", "go", 1⟩] }).conversations ↔
      ((⟨"c1", "u", "s1", "hi", "yo", 0⟩ : ConversationRow) ∈
          [(⟨"c1", "u", "s1", "hi", "yo", 0⟩ : ConversationRow),
           ⟨"c2", "u", "s2", "ok", "go", 1⟩] ∧
        ("s1" : String) ≠ "s1")) :=
  (deleteSession_cascade_spec "s1" "u"
    { sessions := [⟨"s1", "u", 0, 0, 9⟩, ⟨"s2", "u", 1, 1, 9⟩]
      conversations := [⟨"c1", "u", "s1", "hi", "yo", 0⟩,
                        ⟨"c2", "u", "s2", "ok", "go", 1⟩] }).1
    ⟨"c1", "u", "s1", "hi", "yo", 0⟩
